import Mathlib

/-!
Shallow embedding of the questionnaire-wizard client logic of this
repository (views `LangGraphQuestionnaire.vue`, `QuestionnairePage.vue`,
`Dashboard.vue`, `ProfessionalVerification.vue`, and the professional
profile views in `src/unnamed/part_001`).

JavaScript values that flow through the wizard (answers, cached
sessions, API payloads) are modelled by the inductive type `JValue`.
Machine-level aspects (DOM, timers, scrolling) are outside the model;
every network call is modelled by passing the response — or the thrown
error — as an explicit `Except String _` argument, mirroring the
`try`/`catch` structure of the source.
-/

namespace QWiz

/-- JavaScript values, as used by the wizard for answers and payloads.
Numbers are modelled as integers; none of the verified client logic
depends on fractional values. There is no separate `undefined`: where
the source distinguishes absent from `null` (property lookups), the
model uses `Option JValue`. -/
inductive JValue where
  | null
  | bool (b : Bool)
  | num (n : Int)
  | str (s : String)
  | arr (xs : List JValue)
  | obj (fs : List (String × JValue))

/-- JavaScript truthiness of a value (`if (v)`). -/
def jvTruthy : JValue → Bool
  | .null => false
  | .bool b => b
  | .num n => n != 0
  | .str s => s != ""
  | .arr _ => true
  | .obj _ => true

/-- `Array.isArray(v)`. -/
def JValue.isArr : JValue → Bool
  | .arr _ => true
  | _ => false

/-- Is the value a scalar (not an array and not an object)? -/
def JValue.isScalar : JValue → Bool
  | .arr _ => false
  | .obj _ => false
  | _ => true

/-- Strict equality with the empty string (`v === ''`). -/
def isEmptyStr : JValue → Bool
  | .str s => s == ""
  | _ => false

/-- Strict equality with `null` (`v === null`). -/
def isNull : JValue → Bool
  | .null => true
  | _ => false

/-- `typeof v === 'object'` for a non-`null` value: arrays and objects. -/
def isObjectLike : JValue → Bool
  | .arr _ => true
  | .obj _ => true
  | _ => false

/-- Property lookup `v[key]`: `none` models JavaScript `undefined`
(value not an object, or key absent). -/
def getField : JValue → String → Option JValue
  | .obj fs, k => (fs.find? (fun p => p.1 == k)).map (fun p => p.2)
  | _, _ => none

/-- The element list of an array value, `[]` for anything else. -/
def arrElems : JValue → List JValue
  | .arr xs => xs
  | _ => []

/-- Fields produced by a spread `{ ...v }`: the own enumerable
properties. For an object these are its fields, for an array its
index-keyed elements; spreading a primitive yields no properties
(string spreads, which yield index-keyed characters, are not needed by
any verified path and are modelled as empty). -/
def spreadFields : JValue → List (String × JValue)
  | .obj fs => fs
  | .arr xs => (xs.enum.map (fun p => (toString p.1, p.2)))
  | _ => []

/-- JavaScript string coercion `String(v)`. Array conversion joins the
recursively converted elements with commas, rendering `null` elements
as the empty string, as `Array.prototype.toString` does. -/
def jsToString : JValue → String
  | .null => "null"
  | .bool true => "true"
  | .bool false => "false"
  | .num n => toString n
  | .str s => s
  | .arr xs => String.intercalate ","
      (xs.attach.map (fun x =>
        match x with
        | ⟨.null, _⟩ => ""
        | ⟨v, _⟩ => jsToString v))
  | .obj _ => "[object Object]"
decreasing_by
  rename_i hmem
  have h1 := List.sizeOf_lt_of_mem hmem
  simp
  omega

/-- JavaScript `a || b` on values. -/
def jsOr (a b : JValue) : JValue := if jvTruthy a then a else b

/-- One field of a `form`-type question (`q.fields` entries). A
`required` property that is absent in the payload is `none`. -/
structure FormField where
  name : String
  required : Option Bool

/-- A question payload as rendered by the wizard. `type` is kept as the
raw string the server sends, so unknown types take the same default
branches as in the source. `fields` is only meaningful for
`type = "form"`; the source assumes it is present on form questions. -/
structure Question where
  id : String
  type : String
  required : Option Bool
  fields : List FormField

/-- The client-side record of an uploaded file
(`uploadedFile.value`). Before the upload response arrives only
`name`, `size` and `type` are set. -/
structure UploadedFile where
  name : String
  size : Nat
  type : String
  id : Option String := none
  filename : Option String := none
  ocrText : Option String := none
  evidenceNumber : Option String := none
  base64 : Option String := none

/-- Progress info as reported by the server. -/
structure Progress where
  current : Int
  total : Int
  percentage : Int

/-- Part info as reported by the server. -/
structure PartInfo where
  current : Int
  name : String

/-- One entry of the local `questionHistory` stack, pushed by
`submitAnswer` before each request. The source pushes to the end of a
JavaScript array and pops from the end; the model keeps the stack with
its most recent entry at the head. -/
structure HistoryEntry where
  question : Question
  answer : JValue
  progress : Option Progress
  partInfo : Option PartInfo

/-- The reactive state of the questionnaire wizard that the verified
claims talk about (shared shape of `LangGraphQuestionnaire.vue` and
`QuestionnairePage.vue`). -/
structure WizardState where
  currentQuestion : Option Question
  currentAnswer : JValue
  currentAnswerArray : List JValue
  formData : JValue
  uploadedFile : Option UploadedFile
  progress : Option Progress
  partInfo : Option PartInfo
  questionHistory : List HistoryEntry
  sessionAnswers : Option (List (String × JValue))
  isSubmitting : Bool
  isRegenerating : Bool
  isUploading : Bool
  showSummaryReview : Bool
  currentSummary : Option String
  currentPart : Int
  transitionMessage : Option String
  error : String

/-- `formData.value[f.name] && String(formData.value[f.name]).trim()`
as a boolean: the field holds a truthy value whose string form is
non-blank. -/
def formFieldFilled (fd : JValue) (f : FormField) : Bool :=
  match getField fd f.name with
  | none => false
  | some v => jvTruthy v && ((jsToString v).trim != "")

/-- `canSubmit` of `LangGraphQuestionnaire.vue` (lines 389-412). -/
def canSubmit (st : WizardState) : Bool :=
  match st.currentQuestion with
  | none => false
  | some q =>
    if q.type == "message" then true
    else if q.required != some false then
      if q.type == "form" then
        q.fields.all (fun f =>
          if f.required != some false then formFieldFilled st.formData f else true)
      else if q.type == "checkbox" then
        decide (st.currentAnswerArray.length > 0)
      else if q.type == "upload" then true
      else !isEmptyStr st.currentAnswer && !isNull st.currentAnswer
    else true

/-- `canSubmit` of `QuestionnairePage.vue` (lines 310-342). The
`!q.fields` guard of the `form` case is dropped: form questions carry
their field list (the sibling view relies on the same assumption). -/
def canSubmitQP (st : WizardState) : Bool :=
  match st.currentQuestion with
  | none => false
  | some q =>
    if !(q.required == some true) then true
    else
      match q.type with
      | "radio" => !isEmptyStr st.currentAnswer && !isNull st.currentAnswer
      | "select" => !isEmptyStr st.currentAnswer && !isNull st.currentAnswer
      | "text" => !isEmptyStr st.currentAnswer && !isNull st.currentAnswer
      | "textarea" => !isEmptyStr st.currentAnswer && !isNull st.currentAnswer
      | "checkbox" => decide (st.currentAnswerArray.length > 0)
      | "form" =>
        q.fields.all (fun f =>
          !(f.required == some true &&
            !(match getField st.formData f.name with
              | some v => jvTruthy v
              | none => false)))
      | "upload" => !(q.required == some true) || st.uploadedFile.isSome
      | "message" => true
      | _ => true

/-- `uploadedFile.value` viewed as the JavaScript object it is, with
the optional properties present only when set. -/
def uploadedFileJV : Option UploadedFile → JValue
  | none => .null
  | some f =>
    .obj ([("name", .str f.name), ("size", .num f.size), ("type", .str f.type)]
      ++ (match f.id with | some v => [("id", JValue.str v)] | none => [])
      ++ (match f.filename with | some v => [("filename", JValue.str v)] | none => [])
      ++ (match f.ocrText with | some v => [("ocrText", JValue.str v)] | none => [])
      ++ (match f.evidenceNumber with | some v => [("evidenceNumber", JValue.str v)] | none => [])
      ++ (match f.base64 with | some v => [("base64", JValue.str v)] | none => []))

/-- The `answer` value built by `submitAnswer` of
`LangGraphQuestionnaire.vue` (lines 594-603), by question type; a form
answer is the spread copy `{ ...formData.value }`. -/
def answerValueFor (st : WizardState) (q : Question) : JValue :=
  if q.type == "checkbox" then .arr st.currentAnswerArray
  else if q.type == "form" then .obj (spreadFields st.formData)
  else if q.type == "upload" then uploadedFileJV st.uploadedFile
  else st.currentAnswer

/-- The file payload `{filename, content_type, base64}` attached to an
answer submission. -/
structure FilePayload where
  filename : String
  content_type : String
  base64 : Option String

/-- `fileData` built by `submitAnswer` of `LangGraphQuestionnaire.vue`
(lines 614-621): only for upload questions with an uploaded file;
`base64` falls back to `null` when absent or empty
(`uploadedFile.value.base64 || null`). -/
def filePayloadFor (st : WizardState) (q : Question) : Option FilePayload :=
  if q.type == "upload" then
    st.uploadedFile.map (fun f =>
      { filename := f.name
        content_type := f.type
        base64 := f.base64.bind (fun s => if s == "" then none else some s) })
  else none

/-- The body of `POST /workflow/questionnaire/answer`. -/
structure AnswerRequest where
  session_id : String
  question_id : String
  answer : JValue
  file : Option FilePayload

/-- The request `submitAnswer` of `LangGraphQuestionnaire.vue` sends
for the current question. -/
def answerRequestFor (st : WizardState) (sid : String) (q : Question) : AnswerRequest :=
  { session_id := sid
    question_id := q.id
    answer := answerValueFor st q
    file := filePayloadFor st q }

/-- The `answer`/`file` pair built by `submitAnswer` of
`QuestionnairePage.vue` (lines 444-467): the same dispatch, except
that for an upload question the answer is the file name (or `null`
with no file) and `base64` is passed through unchanged. -/
def answerValueFileQP (st : WizardState) (q : Question) : JValue × Option FilePayload :=
  if q.type == "checkbox" then (.arr st.currentAnswerArray, none)
  else if q.type == "form" then (.obj (spreadFields st.formData), none)
  else if q.type == "upload" then
    match st.uploadedFile with
    | some f => (.str f.name, some { filename := f.name, content_type := f.type, base64 := f.base64 })
    | none => (.null, none)
  else (st.currentAnswer, none)

/-- Response payload of the answer endpoint, as read by
`submitAnswer`. -/
structure AnswerResp where
  error : Option String := none
  completed : Bool := false
  status : Option String := none
  show_summary : Bool := false
  interrupt_type : Option String := none
  summary : Option String := none
  current_part : Option Int := none
  show_template_selection : Bool := false
  question : Option Question := none
  progress : Option Progress := none
  part_info : Option PartInfo := none

/-- Result of running a wizard handler: the state afterwards plus the
externally visible effects (navigation, alert dialog, removal of the
cached `sessionStorage` entry). -/
structure HandlerOutcome where
  state : WizardState
  redirect : Option String
  alerted : Bool
  removedStorage : Bool

/-- `resetAnswers` of `LangGraphQuestionnaire.vue` (lines 803-808). -/
def resetAnswers (st : WizardState) : WizardState :=
  { st with currentAnswer := .str "", currentAnswerArray := [], formData := .obj [],
            uploadedFile := none }

/-- Does `submitAnswer` treat the response as a failure? Either the
request threw, or the payload carries a truthy `error`
(`if (data.error) throw ...`). -/
def answerRespFailed : Except String AnswerResp → Bool
  | .error _ => true
  | .ok d => match d.error with
    | some e => e != ""
    | none => false

/-- The completion route `/questionnaire/{id}/complete`. -/
def completionRoute (sid : String) : String :=
  "/questionnaire/" ++ sid ++ "/complete"

/-- The wizard state while a `submitAnswer` request is in flight:
`isSubmitting` set and the current snapshot pushed onto the local
history (lines 590-611). -/
def pushState (st : WizardState) (q : Question) : WizardState :=
  { st with isSubmitting := true
            questionHistory :=
              ⟨q, answerValueFor st q, st.progress, st.partInfo⟩ :: st.questionHistory }

/-- `submitAnswer` of `LangGraphQuestionnaire.vue` (lines 587-673) as
a state transition. The network call is the `resp` argument; the
`finally` block clears `isSubmitting` on every path. -/
def submitAnswer (st : WizardState) (sid : String)
    (resp : Except String AnswerResp) : HandlerOutcome :=
  if !canSubmit st then ⟨st, none, false, false⟩
  else
    match st.currentQuestion with
    | none => ⟨st, none, false, false⟩
    | some q =>
      let pushed : WizardState := pushState st q
      if answerRespFailed resp then
        -- catch: alert and pop the history entry pushed above
        ⟨{ pushed with isSubmitting := false
                       questionHistory := pushed.questionHistory.tail },
          none, true, false⟩
      else
        match resp with
        | .error _ => ⟨st, none, true, false⟩
        | .ok d =>
          if d.completed || d.status == some "completed" || d.status == some "documents_ready" then
            ⟨{ pushed with isSubmitting := false }, some (completionRoute sid), false, true⟩
          else if d.show_summary || d.interrupt_type == some "summary_validation" then
            ⟨{ pushed with isSubmitting := false
                           showSummaryReview := true
                           currentSummary := d.summary
                           currentPart := d.current_part.getD pushed.currentPart },
              none, false, false⟩
          else if d.show_template_selection || d.interrupt_type == some "template_selection" then
            ⟨{ pushed with isSubmitting := false }, some (completionRoute sid), false, true⟩
          else
            match d.question with
            | some nq =>
              let st2 := resetAnswers
                { pushed with currentQuestion := some nq
                              progress := d.progress
                              partInfo := d.part_info }
              let st3 :=
                match d.part_info with
                | some pi =>
                  if pi.current != st2.currentPart then
                    { st2 with currentPart := pi.current
                               transitionMessage := some ("进入 " ++ pi.name) }
                  else st2
                | none => st2
              ⟨{ st3 with isSubmitting := false }, none, false, false⟩
            | none => ⟨{ pushed with isSubmitting := false }, none, false, false⟩

/-- Response payload of the go-back endpoint. `previous_answer` uses
`Option` for an absent key (`undefined`); an explicit JSON `null` is
`some JValue.null`. -/
structure GoBackResp where
  success : Bool
  question : Option Question := none
  progress : Option Progress := none
  part_info : Option PartInfo := none
  previous_answer : Option JValue := none

/-- The `catch` block of `goToPrevious` (lines 779-797): alert, then
restore the last locally remembered snapshot if the history stack is
non-empty — a form answer is restored as the spread copy
`{ ...last.answer }`. Assignments made inside the `try` before the
throw are kept, so the handler takes the state as it is at the point
of the throw. -/
def goBackCatch (st : WizardState) : HandlerOutcome :=
  match st.questionHistory with
  | [] => ⟨{ st with isSubmitting := false }, none, true, false⟩
  | last :: rest =>
    let st1 := { st with questionHistory := rest
                         currentQuestion := some last.question
                         progress := last.progress
                         partInfo := last.partInfo }
    let st2 :=
      if last.question.type == "checkbox" then
        { st1 with currentAnswerArray := arrElems last.answer }
      else if last.question.type == "form" then
        { st1 with formData := .obj (spreadFields last.answer) }
      else
        { st1 with currentAnswer := last.answer }
    ⟨{ st2 with isSubmitting := false }, none, true, false⟩

/-- `goToPrevious` of `LangGraphQuestionnaire.vue` (lines 737-801) as
a state transition: on server success the server state is adopted and
the previous answer restored by type; a thrown request falls into
`goBackCatch`. A success response that carries a non-null
`previous_answer` but no `question` throws on
`currentQuestion.value.type` after the server fields were already
assigned, so it also ends in `goBackCatch`, from the part-assigned
state. -/
def goToPrevious (st : WizardState) (resp : Except String GoBackResp) : HandlerOutcome :=
  if st.isSubmitting then ⟨st, none, false, false⟩
  else
    match resp with
    | .ok d =>
      if d.success then
        let st1 := { st with currentQuestion := d.question
                             progress := d.progress
                             partInfo := d.part_info }
        match d.previous_answer with
        | some pa =>
          if !isNull pa then
            match d.question with
            | some q =>
              let st2 :=
                if q.type == "checkbox" then
                  { st1 with currentAnswerArray := arrElems pa }
                else if q.type == "form" then
                  (if isObjectLike pa then
                    { st1 with formData := .obj (spreadFields pa) }
                   else st1)
                else
                  (if isObjectLike pa then
                    match getField pa "value" with
                    | some v => { st1 with currentAnswer := v }
                    | none => { st1 with currentAnswer := pa }
                   else { st1 with currentAnswer := pa })
              ⟨{ st2 with isSubmitting := false }, none, false, false⟩
            | none => goBackCatch st1
          else ⟨{ resetAnswers st1 with isSubmitting := false }, none, false, false⟩
        | none => ⟨{ resetAnswers st1 with isSubmitting := false }, none, false, false⟩
      else ⟨{ st with isSubmitting := false }, none, false, false⟩
    | .error _ => goBackCatch st

/-- A file handed to the upload handlers (`File` objects from the file
input or the drop event). -/
structure JSFile where
  name : String
  size : Nat
  type : String

/-- Response payload of `POST /workflow/questionnaire/upload`. -/
structure UploadResp where
  success : Bool
  file_id : Option String := none
  filename : Option String := none
  ocr_text : Option String := none
  evidence_number : Option String := none
  detail : Option String := none

/-- Outcome of `processFile`: the state, whether the upload request
was issued, and whether an alert was shown. -/
structure UploadOutcome where
  state : WizardState
  uploadRequested : Bool
  alerted : Bool

/-- `processFile` of `LangGraphQuestionnaire.vue` (lines 821-860). The
source contains no size check: the upload request is issued for every
file, and on failure `uploadedFile` is cleared again. -/
def processFile (st : WizardState) (file : JSFile)
    (resp : Except String UploadResp) : UploadOutcome :=
  let st1 := { st with isUploading := true
                       uploadedFile := some { name := file.name, size := file.size,
                                              type := file.type } }
  match resp with
  | .ok d =>
    if d.success then
      ⟨{ st1 with isUploading := false
                  uploadedFile := some { name := file.name, size := file.size,
                                         type := file.type,
                                         id := d.file_id, filename := d.filename,
                                         ocrText := d.ocr_text,
                                         evidenceNumber := d.evidence_number } },
        true, false⟩
    else
      ⟨{ st1 with isUploading := false, uploadedFile := none }, true, true⟩
  | .error _ =>
    ⟨{ st1 with isUploading := false, uploadedFile := none }, true, true⟩

/-- `handleFileSelect` of `ProfessionalVerification.vue` (lines
348-366): at most five files in total, and any file over the fixed
10MB ceiling aborts the selection with an alert before anything is
added. Returns the new `selectedFiles` list and whether an alert was
shown. -/
def handleFileSelectPV (selected : List JSFile) (files : List JSFile) :
    List JSFile × Bool :=
  if selected.length + files.length > 5 then (selected, true)
  else if files.any (fun f => decide (f.size > 10 * 1024 * 1024)) then (selected, true)
  else (selected ++ files, false)

/-- The `sessionStorage` entry `questionnaire_session` written by
`launchQuestionnaire` of `Dashboard.vue` (lines 138-150) and read back
on wizard mount. -/
structure StoredSession where
  sessionId : String
  status : Option String := none
  question : Option Question := none
  partInfo : Option PartInfo := none
  progress : Option Progress := none
  answers : Option (List (String × JValue)) := none

/-- Response payload of `GET /workflow/questionnaire/session/{id}/resume`. -/
structure ResumeResp where
  success : Bool
  status : Option String := none
  question : Option Question := none
  progress : Option Progress := none
  part_info : Option PartInfo := none
  answers : Option (List (String × JValue)) := none
  message : Option String := none

/-- Response payload of `GET /workflow/questionnaire/session/{id}`. -/
structure StatusResp where
  status : Option String := none

/-- Outcome of `initQuestionnaire`: the resulting state, a possible
redirect, which endpoints were called, and whether the cached
`sessionStorage` entry was removed. -/
structure InitOutcome where
  state : WizardState
  redirect : Option String
  calledResume : Bool
  calledStatus : Bool
  removedStorage : Bool

/-- The session id used by `initQuestionnaire`
(`route.params.sessionId || storedSession?.sessionId`). -/
def sessionIdOf (routeSid : Option String) (stored : Option StoredSession) :
    Option String :=
  match routeSid with
  | some r => some r
  | none => stored.map (fun s => s.sessionId)

/-- The cached answers entry for a question id
(`storedSession.answers[currentQId]`). -/
def answersLookup (ans : List (String × JValue)) (qid : String) : Option JValue :=
  (ans.find? (fun p => p.1 == qid)).map (fun p => p.2)

/-- Pre-population of the cached previous answer for the cached
question (`initQuestionnaire` lines 522-536): the cached entry for the
question id, unwrapped from a `{value: ...}` wrapper where present,
dispatched on the question type. -/
def applyStoredAnswer (st : WizardState) (q : Question)
    (answers : Option (List (String × JValue))) : WizardState :=
  match answers with
  | none => st
  | some ans =>
    match answersLookup ans q.id with
    | none => st
    | some pa =>
      if jvTruthy pa then
        if q.type == "checkbox" then
          let v := jsOr ((getField pa "value").getD .null) pa
          { st with currentAnswerArray := arrElems v }
        else if q.type == "form" then
          { st with formData := jsOr ((getField pa "value").getD .null) pa }
        else
          match getField pa "value" with
          | some v => { st with currentAnswer := v }
          | none => { st with currentAnswer := pa }
      else st

/-- The resume path of `initQuestionnaire` (lines 543-577): the resume
endpoint, with the plain session-status endpoint as fallback when the
resume payload is not successful. -/
def resumeFlow (st0 : WizardState) (sid : String) (resume : Except String ResumeResp)
    (statusR : Except String StatusResp) : InitOutcome :=
  match resume with
  | .error e =>
    ⟨{ st0 with error := e }, none, true, false, false⟩
  | .ok d =>
    if d.success then
      if d.status == some "completed" then
        ⟨st0, some (completionRoute sid), true, false, false⟩
      else
        match d.question with
        | some q =>
          ⟨{ st0 with currentQuestion := some q
                      progress := d.progress
                      partInfo := d.part_info
                      sessionAnswers := d.answers },
            none, true, false, false⟩
        | none =>
          ⟨{ st0 with error := d.message.getD "会话状态异常，请重新开始问卷" },
            none, true, false, false⟩
    else
      match statusR with
      | .error e => ⟨{ st0 with error := e }, none, true, true, false⟩
      | .ok sd =>
        if sd.status == some "completed" then
          ⟨st0, some (completionRoute sid), true, true, false⟩
        else
          ⟨{ st0 with error := "会话状态异常，请重新开始问卷" },
            none, true, true, false⟩

/-- `initQuestionnaire` of `LangGraphQuestionnaire.vue` (lines
500-585). The two possible network round trips (resume endpoint and
fallback session-status endpoint) are the `resume` and `statusR`
arguments; `calledResume`/`calledStatus` record whether the code path
reaches them. -/
def initQuestionnaire (st0 : WizardState) (routeSid : Option String)
    (stored : Option StoredSession) (resume : Except String ResumeResp)
    (statusR : Except String StatusResp) : InitOutcome :=
  match sessionIdOf routeSid stored with
  | none =>
    ⟨{ st0 with error := "会话信息丢失，请重新开始问卷" }, none, false, false, false⟩
  | some sid =>
    match stored with
    | some s =>
      match s.question with
      | some q =>
        if s.sessionId == sid then
          let st1 := applyStoredAnswer
            { st0 with currentQuestion := some q
                       progress := s.progress
                       partInfo := s.partInfo } q s.answers
          ⟨st1, none, false, false, true⟩
        else resumeFlow st0 sid resume statusR
      | none => resumeFlow st0 sid resume statusR
    | none => resumeFlow st0 sid resume statusR

/-! ### HTML sanitisation (`formatText`)

HTML fragments are modelled as token streams: character data
interleaved with tags. A tag token carries its name and attribute
list; the model does not distinguish opening/closing/self-closing
forms, which is irrelevant to the allow-list property. Text is kept as
`List Char` so that the newline-to-`<br>` rewriting is a structural
recursion. -/

/-- One token of an HTML fragment. -/
inductive HtmlToken where
  | text (cs : List Char)
  | tag (name : String) (attrs : List (String × String))

/-- Modelled from the spec: `DOMPurify.sanitize` (third-party
dependency `dompurify`, not part of src/) per its documented contract
for the options used in the source: only tags whose name is in
`ALLOWED_TAGS` are kept, every attribute not in `ALLOWED_ATTR` is
stripped, and character data is preserved (`KEEP_CONTENT` default). -/
def sanitize (allowedTags allowedAttrs : List String)
    (ts : List HtmlToken) : List HtmlToken :=
  ts.filterMap (fun t =>
    match t with
    | .text cs => some (.text cs)
    | .tag n attrs =>
      if n ∈ allowedTags then
        some (.tag n (attrs.filter (fun a => a.1 ∈ allowedAttrs)))
      else none)

/-- Replace each two-character sequence backslash-`n` by a newline
character, mirroring the first `replace(/\\n/g, ...)` of
`formatText` composed with the second (see `newlineToBr`). -/
def replaceLiteralNewline : List Char → List Char
  | '\\' :: 'n' :: cs => '\n' :: replaceLiteralNewline cs
  | c :: cs => c :: replaceLiteralNewline cs
  | [] => []

/-- Split character data at newline characters. -/
def splitAtNewline : List Char → List (List Char)
  | [] => [[]]
  | c :: cs =>
    if c = '\n' then [] :: splitAtNewline cs
    else
      match splitAtNewline cs with
      | [] => [[c]]
      | p :: ps => (c :: p) :: ps

/-- Rewrite one character-data run: both the literal two-character
`\n` sequence and the newline character become `<br>` tags
(`.replace(/\\n/g, '<br>').replace(/\n/g, '<br>')`). -/
def newlineToBr (cs : List Char) : List HtmlToken :=
  ((splitAtNewline (replaceLiteralNewline cs)).map HtmlToken.text).intersperse
    (.tag "br" [])

/-- The tag allow-list of `formatText` in `LangGraphQuestionnaire.vue`
(line 470). -/
def lgAllowedTags : List String := ["br", "b", "i", "u", "strong", "em", "p"]

/-- `formatText` of `LangGraphQuestionnaire.vue` (lines 466-475):
sanitise with the fixed tag allow-list and an empty attribute
allow-list, then render newlines as `<br>`. -/
def formatText (ts : List HtmlToken) : List HtmlToken :=
  (sanitize lgAllowedTags [] ts).flatMap (fun t =>
    match t with
    | .text cs => newlineToBr cs
    | .tag n a => [.tag n a])

/-- The tag allow-list of `formatText` in `QuestionnairePage.vue`
(line 348); unlike the sibling view it omits `u`. -/
def qpAllowedTags : List String := ["br", "b", "strong", "i", "em", "p"]

/-- Modelled from the spec: DOMPurify's default attribute allow-list
(third-party dependency `dompurify`, not part of src/), which applies
when a `sanitize` call passes no `ALLOWED_ATTR` option; a
representative subset of the documented HTML defaults. -/
def dompurifyDefaultAttrs : List String := ["href", "title", "alt", "style", "src"]

/-- Rewrite one character-data run for the `QuestionnairePage.vue`
variant: only the newline character becomes a `<br>`
(`text.replace(/\n/g, '<br>')`, applied before sanitisation). -/
def newlineToBrQP (cs : List Char) : List HtmlToken :=
  ((splitAtNewline cs).map HtmlToken.text).intersperse (.tag "br" [])

/-- `formatText` of `QuestionnairePage.vue` (lines 345-350): newlines
are rewritten to `<br>` first, then the fragment is sanitised with the
tag allow-list and — since no `ALLOWED_ATTR` is passed — DOMPurify's
default attribute allow-list. -/
def formatTextQP (ts : List HtmlToken) : List HtmlToken :=
  sanitize qpAllowedTags dompurifyDefaultAttrs
    (ts.flatMap (fun t =>
      match t with
      | .text cs => newlineToBrQP cs
      | .tag n a => [.tag n a]))

/-! ### `JSON.parse` and `parseSpecialtyAreas`

A fuel-indexed recursive-descent JSON parser models `JSON.parse`;
parse failure models a thrown `SyntaxError`. Numbers are modelled as
integers (no fraction/exponent forms); no verified claim depends on
fractional number values. -/

/-- Skip JSON whitespace. -/
def skipWs : List Char → List Char
  | [] => []
  | c :: cs =>
    if c = ' ' || c = '\n' || c = '\t' || c = '\r' then skipWs cs else c :: cs

/-- Accumulate decimal digits. -/
def parseDigitsAux : List Char → Nat → Nat × List Char
  | c :: cs, acc =>
    if c.isDigit then parseDigitsAux cs (acc * 10 + (c.toNat - '0'.toNat))
    else (acc, c :: cs)
  | [], acc => (acc, [])

/-- Parse at least one decimal digit. -/
def parseNatNum (cs : List Char) : Option (Nat × List Char) :=
  match cs with
  | c :: _ => if c.isDigit then some (parseDigitsAux cs 0) else none
  | [] => none

/-- Translate a character after a backslash in a JSON string. Escapes
other than the common single-character ones are approximated by the
escaped character itself. -/
def escChar (c : Char) : Char :=
  if c = 'n' then '\n' else if c = 't' then '\t' else if c = 'r' then '\r' else c

/-- Parse the remainder of a JSON string after the opening quote. -/
def parseStrAux (acc : List Char) : List Char → Option (String × List Char)
  | '"' :: rest => some (String.mk acc.reverse, rest)
  | '\\' :: c :: rest => parseStrAux (escChar c :: acc) rest
  | c :: rest => parseStrAux (c :: acc) rest
  | [] => none

mutual

/-- Parse one JSON value. -/
def parseVal : Nat → List Char → Option (JValue × List Char)
  | 0, _ => none
  | fuel + 1, cs =>
    match skipWs cs with
    | 'n' :: 'u' :: 'l' :: 'l' :: rest => some (.null, rest)
    | 't' :: 'r' :: 'u' :: 'e' :: rest => some (.bool true, rest)
    | 'f' :: 'a' :: 'l' :: 's' :: 'e' :: rest => some (.bool false, rest)
    | '"' :: rest => (parseStrAux [] rest).map (fun p => (.str p.1, p.2))
    | '[' :: rest =>
      (match skipWs rest with
       | ']' :: rest2 => some (.arr [], rest2)
       | cs2 => (parseArrItems fuel cs2).map (fun p => (.arr p.1, p.2)))
    | '\x7b' :: rest =>
      (match skipWs rest with
       | '\x7d' :: rest2 => some (.obj [], rest2)
       | cs2 => (parseObjItems fuel cs2).map (fun p => (.obj p.1, p.2)))
    | '-' :: rest => (parseNatNum rest).map (fun p => (.num (-(p.1 : Int)), p.2))
    | cs2 => (parseNatNum cs2).map (fun p => (.num (p.1 : Int), p.2))

/-- Parse the comma-separated items of a non-empty JSON array, up to
and including the closing bracket. -/
def parseArrItems : Nat → List Char → Option (List JValue × List Char)
  | 0, _ => none
  | fuel + 1, cs =>
    match parseVal fuel cs with
    | none => none
    | some (v, rest) =>
      match skipWs rest with
      | ',' :: rest2 => (parseArrItems fuel rest2).map (fun p => (v :: p.1, p.2))
      | ']' :: rest2 => some ([v], rest2)
      | _ => none

/-- Parse the members of a non-empty JSON object, up to and including
the closing brace. -/
def parseObjItems : Nat → List Char → Option (List (String × JValue) × List Char)
  | 0, _ => none
  | fuel + 1, cs =>
    match skipWs cs with
    | '"' :: rest =>
      match parseStrAux [] rest with
      | none => none
      | some (k, rest2) =>
        match skipWs rest2 with
        | ':' :: rest3 =>
          (match parseVal fuel rest3 with
           | none => none
           | some (v, rest4) =>
             match skipWs rest4 with
             | ',' :: rest5 => (parseObjItems fuel rest5).map (fun p => ((k, v) :: p.1, p.2))
             | '\x7d' :: rest5 => some ([(k, v)], rest5)
             | _ => none)
        | _ => none
    | _ => none

end

/-- `JSON.parse`: parse a complete JSON document; `none` models a
thrown `SyntaxError`. -/
def jsonParse (s : String) : Option JValue :=
  match parseVal (2 * s.length + 2) s.data with
  | some (v, rest) => if (skipWs rest).isEmpty then some v else none
  | none => none

/-- `parseSpecialtyAreas` of the first professional-profile view
(`src/unnamed/part_001` lines 467-477): falsy input and parse
failures yield `[]`, and a parsed value is returned only when it is an
array. `JSON.parse` string-coerces its argument. -/
def parseSpecialtyAreas1 (areas : JValue) : JValue :=
  if !jvTruthy areas then .arr []
  else if areas.isArr then areas
  else
    match jsonParse (jsToString areas) with
    | some parsed => if parsed.isArr then parsed else .arr []
    | none => .arr []

/-- `parseSpecialtyAreas` of the second professional-profile view
(`src/unnamed/part_001` lines 1271-1275): the parse result is
returned unconditionally, whatever JSON value it is. -/
def parseSpecialtyAreas2 (areas : JValue) : JValue :=
  if !jvTruthy areas then .arr []
  else if areas.isArr then areas
  else
    match jsonParse (jsToString areas) with
    | some parsed => parsed
    | none => .arr []

/-! ### Busy-flag guards

For each user action of `LangGraphQuestionnaire.vue`, `xStarts st`
says whether a click dispatched in state `st` reaches the network
call: the triggering control must be enabled (template `:disabled`
binding; a disabled control does not fire) and the handler must not
return early. -/

/-- `canGoBack` of `LangGraphQuestionnaire.vue` (lines 380-387). -/
def canGoBack (st : WizardState) : Bool :=
  if st.isSubmitting then false
  else if decide (st.questionHistory.length > 0) then true
  else
    match st.progress with
    | some p => decide (p.current > 1)
    | none => false

/-- Submit: button `:disabled="!canSubmit || isSubmitting"` (line 273)
and handler guard `if (!canSubmit.value) return` (line 588). -/
def submitStarts (st : WizardState) : Bool :=
  !(!canSubmit st || st.isSubmitting) && canSubmit st

/-- Go back: button shown `v-if="canGoBack"` with
`:disabled="isSubmitting"` (lines 263-266) and handler guard
`if (isSubmitting.value) return` (line 738). -/
def goPrevStarts (st : WizardState) : Bool :=
  (canGoBack st && !st.isSubmitting) && !st.isSubmitting

/-- Regenerate: shown in the summary review
(`v-else-if="showSummaryReview && currentSummary"`, line 48) with
`:disabled="isRegenerating"` (line 57); the handler has no guard. -/
def regenStarts (st : WizardState) : Bool :=
  (st.showSummaryReview && st.currentSummary.isSome) && !st.isRegenerating

/-- Confirm summary: shown in the summary review (line 60); the button
has no `:disabled` binding and `confirmSummary` (line 679) has no
guard. -/
def confirmStarts (st : WizardState) : Bool :=
  st.showSummaryReview && st.currentSummary.isSome

/-- File select/drop: the upload dropzone (lines 224-237) is rendered
for an upload-type question, is never disabled, and `processFile`
(line 821) has no guard. -/
def uploadStarts (st : WizardState) : Bool :=
  match st.currentQuestion with
  | some q => q.type == "upload"
  | none => false

/-- Safety of one output token of `formatText`: a tag is in the
allow-list and carries no attributes, and character data contains no
raw newline. -/
def tokenSafe (t : HtmlToken) : Prop :=
  match t with
  | .tag n attrs => n ∈ lgAllowedTags ∧ attrs = []
  | .text cs => '\n' ∉ cs

/-- Safety of one output token of the `QuestionnairePage.vue`
`formatText`: a tag is from its allow-list and carries only attributes
from DOMPurify's default allow-list (they are not stripped), and
character data contains no raw newline. -/
def qpTokenSafe (t : HtmlToken) : Prop :=
  match t with
  | .tag n attrs => n ∈ qpAllowedTags ∧ ∀ a ∈ attrs, a.1 ∈ dompurifyDefaultAttrs
  | .text cs => '\n' ∉ cs

/-! ### Concrete fixtures for witnesses and counterexamples -/

/-- The wizard state right after component setup (the `ref` initial
values of `LangGraphQuestionnaire.vue`, lines 352-377). -/
def initialState : WizardState :=
  { currentQuestion := none
    currentAnswer := .str ""
    currentAnswerArray := []
    formData := .obj []
    uploadedFile := none
    progress := none
    partInfo := none
    questionHistory := []
    sessionAnswers := none
    isSubmitting := false
    isRegenerating := false
    isUploading := false
    showSummaryReview := false
    currentSummary := none
    currentPart := 1
    transitionMessage := none
    error := "" }

/-- A required upload question. -/
def uploadQ : Question := { id := "q9", type := "upload", required := some true, fields := [] }

/-- A required checkbox question. -/
def checkboxQ : Question := { id := "q5", type := "checkbox", required := some true, fields := [] }

/-- A required radio question. -/
def radioQ : Question := { id := "q2", type := "radio", required := some true, fields := [] }

/-- The uploaded-file object cached as the answer of an upload
question. -/
def cachedUploadAnswer : JValue :=
  .obj [("name", .str "a.pdf"), ("size", .num 3), ("type", .str "application/pdf"),
        ("id", .str "f17")]

/-- A file just over the fixed 10MB ceiling. -/
def bigFile : JSFile :=
  { name := "big.pdf", size := 10 * 1024 * 1024 + 1, type := "application/pdf" }

/-- A state with the summary review open while requests are in
flight. -/
def stBusySummary : WizardState :=
  { initialState with showSummaryReview := true, currentSummary := some "s",
                      isSubmitting := true, isRegenerating := true }

/-- A state whose local history holds an answered upload question. -/
def stWithUploadHistory : WizardState :=
  { initialState with
      currentQuestion := some radioQ,
      questionHistory := [⟨uploadQ, cachedUploadAnswer, some ⟨2, 10, 20⟩, some ⟨1, "part1"⟩⟩] }

/-- A state showing a radio question with a choice made. -/
def stRadioFilled : WizardState :=
  { initialState with currentQuestion := some radioQ, currentAnswer := .str "optA" }

/-- A state showing the required upload question with no file
uploaded. -/
def stUploadRequired : WizardState := { initialState with currentQuestion := some uploadQ }

/-- A state showing the required checkbox question with nothing
selected. -/
def stCheckboxEmpty : WizardState := { initialState with currentQuestion := some checkboxQ }

/-- The uploaded-file record after a successful upload response. -/
def uploadedF : UploadedFile :=
  { name := "a.pdf", size := 3, type := "application/pdf",
    id := some "f17", filename := some "a.pdf" }

/-- A state showing the upload question with a file already
uploaded. -/
def stUploadDone : WizardState :=
  { initialState with currentQuestion := some uploadQ, uploadedFile := some uploadedF }

/-- A resume response reporting the session already completed. -/
def resumeCompleted : ResumeResp := { success := true, status := some "completed" }

/-- A cached stored session carrying the first question and a cached
answer, as `launchQuestionnaire` writes it. -/
def storedWithQ : StoredSession :=
  { sessionId := "s1", question := some radioQ, answers := some [("q2", .str "optB")] }

/-- A cached stored session holding the checkbox question with a
`{value: [...]}`-wrapped cached answer. -/
def storedWithCheckbox : StoredSession :=
  { sessionId := "s2", question := some checkboxQ,
    answers := some [("q5", .obj [("value", .arr [.str "A"])])] }

/-- A server-supplied fragment mixing a disallowed tag, text with a
newline, and an allowed tag carrying an attribute. -/
def sampleHtml : List HtmlToken :=
  [.tag "script" [("src", "x")], .text ('a' :: '\n' :: 'b' :: []), .tag "b" [("onclick", "y")]]

/-! ## Theorems -/

/-- Any member of an interspersed list is the separator or a member of
the original list. -/
theorem mem_intersperse {α : Type} (sep : α) :
    ∀ (l : List α) (a : α), a ∈ l.intersperse sep → a = sep ∨ a ∈ l
  | [], a, h => by simp [List.intersperse] at h
  | [x], a, h => by
    simp [List.intersperse] at h
    simp [h]
  | x :: y :: tl, a, h => by
    rw [List.intersperse_cons_cons] at h
    rcases List.mem_cons.mp h with rfl | h2
    · exact Or.inr (List.mem_cons_self _ _)
    · rcases List.mem_cons.mp h2 with rfl | h3
      · exact Or.inl rfl
      · rcases mem_intersperse sep (y :: tl) a h3 with h4 | h4
        · exact Or.inl h4
        · exact Or.inr (List.mem_cons_of_mem _ h4)

/-- Splitting at newlines leaves no newline inside any part. -/
theorem splitAtNewline_no_nl : ∀ (cs : List Char), ∀ p ∈ splitAtNewline cs, '\n' ∉ p := by
  intro cs
  induction cs with
  | nil =>
    intro p hp
    simp [splitAtNewline] at hp
    simp [hp]
  | cons c cs ih =>
    intro p hp
    by_cases hc : c = '\n'
    · rw [splitAtNewline, if_pos hc] at hp
      rcases List.mem_cons.mp hp with rfl | hp2
      · simp
      · exact ih p hp2
    · rw [splitAtNewline, if_neg hc] at hp
      cases hr : splitAtNewline cs with
      | nil =>
        rw [hr] at hp
        simp at hp
        subst hp
        simp only [List.mem_singleton]
        exact fun h => hc h.symm
      | cons q qs =>
        rw [hr] at hp
        rcases List.mem_cons.mp hp with rfl | hp2
        · intro hmem
          rcases List.mem_cons.mp hmem with heq | hmem2
          · exact hc heq.symm
          · exact ih q (hr ▸ List.mem_cons_self q qs) hmem2
        · exact ih p (hr ▸ List.mem_cons_of_mem q hp2)

/-- Pre-population never touches the question, progress or part
info slots. -/
theorem applyStoredAnswer_preserves (st : WizardState) (q : Question)
    (ans : Option (List (String × JValue))) :
    (applyStoredAnswer st q ans).currentQuestion = st.currentQuestion ∧
    (applyStoredAnswer st q ans).progress = st.progress ∧
    (applyStoredAnswer st q ans).partInfo = st.partInfo := by
  unfold applyStoredAnswer
  repeat' split
  all_goals exact ⟨rfl, rfl, rfl⟩

/-- A conditional whose else-branch is `true` holds exactly when the
condition implies the then-branch. -/
theorem ite_true_right_iff {c : Prop} [Decidable c] (b : Bool) :
    ((if c then b else true) = true) ↔ (c → b = true) := by
  split <;> simp_all

/-- With no current question, nothing can be submitted. -/
theorem canSubmit_none (st : WizardState) (h : st.currentQuestion = none) :
    canSubmit st = false := by
  unfold canSubmit
  rw [h]

/-- C10 counterexample: the second profile view's `parseSpecialtyAreas`
returns the number `5` — not an array — for the input string `"5"`,
refuting the claim that both variants always return an array. -/
theorem c10_counterexample :
    parseSpecialtyAreas2 (.str "5") = .num 5 ∧
    (parseSpecialtyAreas2 (.str "5")).isArr = false := by
  constructor <;> (simp only [parseSpecialtyAreas2, jsToString]; rfl)

/-- C10 amended: both `parseSpecialtyAreas` variants are total (never
throw; the `try`/`catch` absorbs parse failures). The first variant
always returns an array. The second returns a non-array only when its
input is a truthy non-array whose string coercion parses as exactly
that non-array JSON value — that parse result is passed through
unchanged. -/
theorem c10_amended :
    (∀ v, (parseSpecialtyAreas1 v).isArr = true) ∧
    (∀ v, (parseSpecialtyAreas2 v).isArr = false →
      ∃ w, jsonParse (jsToString v) = some w ∧ w.isArr = false ∧
        parseSpecialtyAreas2 v = w ∧ v.isArr = false) := by
  constructor
  · intro v
    unfold parseSpecialtyAreas1
    split
    · rfl
    · split
      · assumption
      · split
        · split
          · assumption
          · rfl
        · rfl
  · intro v h
    unfold parseSpecialtyAreas2 at h ⊢
    by_cases h1 : (!jvTruthy v) = true
    · rw [if_pos h1] at h
      simp [JValue.isArr] at h
    · rw [if_neg h1] at h ⊢
      by_cases h2 : v.isArr = true
      · rw [if_pos h2] at h
        simp [h] at h2
      · rw [if_neg h2] at h ⊢
        cases hw : jsonParse (jsToString v) with
        | none =>
          rw [hw] at h
          simp [JValue.isArr] at h
        | some w =>
          rw [hw] at h
          exact ⟨w, rfl, h, rfl, by simpa using h2⟩

/-- C10 witness: the amended theorem applied to the concrete input
string `"7"`, whose parse result is the non-array number `7`. -/
theorem c10_witness :
    (parseSpecialtyAreas2 (.str "7")).isArr = false ∧
    (∃ w, jsonParse (jsToString (.str "7")) = some w ∧ w.isArr = false ∧
      parseSpecialtyAreas2 (.str "7") = w ∧ (JValue.str "7").isArr = false) := by
  have h : (parseSpecialtyAreas2 (.str "7")).isArr = false := by
    simp only [parseSpecialtyAreas2, jsToString]; rfl
  exact ⟨h, c10_amended.2 (.str "7") h⟩

/-- C2 counterexample: the wizard's `processFile` issues the upload
request even for a file exceeding the 10MB ceiling — there is no
client-side size check in the questionnaire upload sub-flow. -/
theorem c2_counterexample :
    bigFile.size > 10 * 1024 * 1024 ∧
    (processFile initialState bigFile (.ok { success := true })).uploadRequested = true := by
  exact ⟨by norm_num [bigFile], rfl⟩

/-- C2 amended: the wizard's `processFile` issues the upload request
for every file regardless of size; the 10MB client-side ceiling is
enforced only by `handleFileSelect` of `ProfessionalVerification.vue`,
which leaves the selection unchanged and alerts when any chosen file
exceeds it. -/
theorem c2_amended :
    (∀ st file resp, (processFile st file resp).uploadRequested = true) ∧
    (∀ selected files f, f ∈ files → f.size > 10 * 1024 * 1024 →
      selected.length + files.length ≤ 5 →
      handleFileSelectPV selected files = (selected, true)) := by
  constructor
  · intro st file resp
    unfold processFile
    rcases resp with e | d
    · rfl
    · by_cases h : d.success = true <;> simp [h]
  · intro selected files f hf hsz hn
    unfold handleFileSelectPV
    rw [if_neg (by omega)]
    rw [if_pos]
    exact List.any_eq_true.mpr ⟨f, hf, by simpa using hsz⟩

/-- C2 witness: the amended theorem applied to a concrete oversized
file in both flows. -/
theorem c2_witness :
    ((processFile initialState bigFile (.error "x")).uploadRequested = true) ∧
    (bigFile ∈ [bigFile] ∧ bigFile.size > 10 * 1024 * 1024 ∧
      ([] : List JSFile).length + [bigFile].length ≤ 5 ∧
      handleFileSelectPV [] [bigFile] = ([], true)) := by
  refine ⟨c2_amended.1 initialState bigFile (.error "x"),
    List.mem_singleton.mpr rfl, by norm_num [bigFile], by simp, ?_⟩
  exact c2_amended.2 [] [bigFile] bigFile (List.mem_singleton.mpr rfl)
    (by norm_num [bigFile]) (by simp)

/-- C8 counterexample: with a summary-confirm request in flight
(`isSubmitting = true`) the confirm button is still enabled and its
handler has no guard, so a second request can be started; likewise the
upload dropzone while `isUploading = true`. -/
theorem c8_counterexample :
    confirmStarts stBusySummary = true ∧ stBusySummary.isSubmitting = true ∧
    uploadStarts { initialState with currentQuestion := some uploadQ, isUploading := true } = true := by
  exact ⟨rfl, rfl, rfl⟩

/-- C8 amended: the at-most-one-in-flight guard does hold for the
submit, go-back and regenerate actions — while their busy flag is set
the corresponding control cannot dispatch another request, and in
particular the state `submitAnswer` holds while its request is in
flight (`pushState`) admits no second submit or go-back dispatch. (The
guard fails for summary-confirm and file upload, per the
counterexample.) -/
theorem c8_amended :
    (∀ st : WizardState,
      (st.isSubmitting = true → submitStarts st = false ∧ goPrevStarts st = false) ∧
      (st.isRegenerating = true → regenStarts st = false)) ∧
    (∀ (st : WizardState) (q : Question),
      submitStarts (pushState st q) = false ∧ goPrevStarts (pushState st q) = false) := by
  have hflags : ∀ st : WizardState,
      (st.isSubmitting = true → submitStarts st = false ∧ goPrevStarts st = false) ∧
      (st.isRegenerating = true → regenStarts st = false) := by
    intro st
    refine ⟨fun h => ⟨?_, ?_⟩, fun h => ?_⟩
    · simp [submitStarts, h]
    · simp [goPrevStarts, h]
    · simp [regenStarts, h]
  exact ⟨hflags, fun st q => (hflags (pushState st q)).1 rfl⟩

/-- C8 witness: the amended theorem applied to a concrete busy state
and to a concrete mid-flight submit state. -/
theorem c8_witness :
    stBusySummary.isSubmitting = true ∧
    submitStarts stBusySummary = false ∧
    goPrevStarts stBusySummary = false ∧
    regenStarts stBusySummary = false ∧
    submitStarts (pushState stRadioFilled radioQ) = false := by
  have h := c8_amended.1 stBusySummary
  have h2 := c8_amended.2 stRadioFilled radioQ
  exact ⟨rfl, (h.1 rfl).1, (h.1 rfl).2, h.2 rfl, h2.1⟩

/-- C5 counterexample: restoring an upload question from local history
after a failed go-back puts the cached uploaded-file object into the
scalar answer slot — the restored answer is not a scalar, refuting the
claimed array/object/scalar shape for every non-checkbox non-form
type. -/
theorem c5_counterexample :
    (goToPrevious stWithUploadHistory (.error "network")).state.currentQuestion = some uploadQ ∧
    (goToPrevious stWithUploadHistory (.error "network")).state.currentAnswer = cachedUploadAnswer ∧
    ((goToPrevious stWithUploadHistory (.error "network")).state.currentAnswer).isScalar = false := by
  exact ⟨rfl, rfl, rfl⟩

/-- C5 amended: when the go-back request fails and the local history
is non-empty, the last snapshot is popped and its question, progress
and part info restored, with the cached answer restored as an array
for a checkbox question, as spread object fields for a form question,
and as the cached value unchanged for every other type — which for an
upload question is the uploaded-file object, not a scalar. -/
theorem c5_amended (st : WizardState) (e : String) (last : HistoryEntry)
    (rest : List HistoryEntry)
    (hsub : st.isSubmitting = false) (hh : st.questionHistory = last :: rest) :
    (goToPrevious st (.error e)).state.currentQuestion = some last.question ∧
    (goToPrevious st (.error e)).state.progress = last.progress ∧
    (goToPrevious st (.error e)).state.partInfo = last.partInfo ∧
    (goToPrevious st (.error e)).state.questionHistory = rest ∧
    (goToPrevious st (.error e)).alerted = true ∧
    (last.question.type = "checkbox" →
      (goToPrevious st (.error e)).state.currentAnswerArray = arrElems last.answer) ∧
    (last.question.type = "form" →
      (goToPrevious st (.error e)).state.formData = .obj (spreadFields last.answer)) ∧
    (last.question.type ≠ "checkbox" → last.question.type ≠ "form" →
      (goToPrevious st (.error e)).state.currentAnswer = last.answer) := by
  unfold goToPrevious goBackCatch
  rw [hsub, hh]
  by_cases h1 : (last.question.type == "checkbox") = true <;>
    by_cases h2 : (last.question.type == "form") = true <;>
    refine ⟨?_, ?_, ?_, ?_, ?_, fun hc => ?_, fun hf => ?_, fun hc hf => ?_⟩ <;>
    simp_all

/-- C5 witness: the amended theorem applied to the concrete state with
one upload-question history entry. -/
theorem c5_witness :
    stWithUploadHistory.isSubmitting = false ∧
    stWithUploadHistory.questionHistory =
      ⟨uploadQ, cachedUploadAnswer, some ⟨2, 10, 20⟩, some ⟨1, "part1"⟩⟩ :: [] ∧
    (goToPrevious stWithUploadHistory (.error "net")).state.currentQuestion = some uploadQ ∧
    (goToPrevious stWithUploadHistory (.error "net")).state.questionHistory = [] := by
  have h := c5_amended stWithUploadHistory "net"
    ⟨uploadQ, cachedUploadAnswer, some ⟨2, 10, 20⟩, some ⟨1, "part1"⟩⟩ [] rfl rfl
  exact ⟨rfl, rfl, h.1, h.2.2.2.1⟩

/-- C6 confirmed: when an answer submission fails — the request throws
or the response carries an error — the wizard state afterwards equals
the state before the submission (the history entry pushed before the
request is popped again and no other field is touched), an alert asks
the user to retry, and no navigation or storage change happens. -/
theorem c6_confirmed (st : WizardState) (sid : String) (resp : Except String AnswerResp)
    (hsub : st.isSubmitting = false) (hcan : canSubmit st = true)
    (hfail : answerRespFailed resp = true) :
    (submitAnswer st sid resp).state = st ∧
    (submitAnswer st sid resp).alerted = true ∧
    (submitAnswer st sid resp).redirect = none ∧
    (submitAnswer st sid resp).removedStorage = false := by
  obtain ⟨q, hq⟩ : ∃ q, st.currentQuestion = some q := by
    cases hqq : st.currentQuestion with
    | none => rw [canSubmit_none st hqq] at hcan; cases hcan
    | some q => exact ⟨q, rfl⟩
  rcases st with ⟨cq, ca, caa, fd, uf, pr, pi, qh, sa, isub, ireg, iupl, ssr, csum, cp, tm, er⟩
  dsimp only at hq hsub
  subst hq
  subst hsub
  unfold submitAnswer
  rw [hcan, hfail]
  exact ⟨rfl, rfl, rfl, rfl⟩

/-- C6 witness: the confirmed theorem applied to a concrete answered
radio question and a thrown request. -/
theorem c6_witness :
    stRadioFilled.isSubmitting = false ∧
    canSubmit stRadioFilled = true ∧
    answerRespFailed (.error "network") = true ∧
    (submitAnswer stRadioFilled "s1" (.error "network")).state = stRadioFilled ∧
    (submitAnswer stRadioFilled "s1" (.error "network")).alerted = true := by
  have h := c6_confirmed stRadioFilled "s1" (.error "network") rfl (by rfl) rfl
  exact ⟨rfl, by rfl, rfl, h.1, h.2.1⟩

/-- C1 counterexample: in `LangGraphQuestionnaire.vue`, a required
upload question with no uploaded file still has `canSubmit = true`,
refuting the claim that `canSubmit` is false whenever a required
selection is empty for all question types including upload. -/
theorem c1_counterexample :
    stUploadRequired.uploadedFile = none ∧
    uploadQ.required = some true ∧
    canSubmit stUploadRequired = true := ⟨rfl, rfl, rfl⟩

/-- C1 amended: the claimed emptiness rule holds for every question
type except upload in `LangGraphQuestionnaire.vue`, whose `canSubmit`
is true for upload questions regardless of file presence; message and
non-required questions are always submittable, and the upload rule
does hold in `QuestionnairePage.vue`'s `canSubmit`. -/
theorem c1_amended (st : WizardState) (q : Question) (hq : st.currentQuestion = some q) :
    (q.type = "message" → canSubmit st = true) ∧
    (q.required = some false → canSubmit st = true) ∧
    (q.type = "upload" → canSubmit st = true) ∧
    (q.type = "checkbox" → q.required ≠ some false →
      (canSubmit st = true ↔ st.currentAnswerArray ≠ [])) ∧
    (q.type = "form" → q.required ≠ some false →
      (canSubmit st = true ↔
        ∀ f ∈ q.fields, f.required ≠ some false → formFieldFilled st.formData f = true)) ∧
    (q.type ∉ (["message", "form", "checkbox", "upload"] : List String) →
      q.required ≠ some false →
      (canSubmit st = true ↔ (st.currentAnswer ≠ .str "" ∧ st.currentAnswer ≠ .null))) ∧
    (q.type = "upload" → q.required = some true →
      (canSubmitQP st = true ↔ st.uploadedFile.isSome = true)) := by
  refine ⟨fun h => ?_, fun h => ?_, fun h => ?_, fun h hr => ?_, fun h hr => ?_,
    fun h hr => ?_, fun h hr => ?_⟩
  · unfold canSubmit; rw [hq]; simp [h]
  · unfold canSubmit; rw [hq]; simp [h]
  · unfold canSubmit; rw [hq]; simp [h]
  · unfold canSubmit; rw [hq]
    simp [h, bne_iff_ne, hr, List.length_pos]
  · unfold canSubmit; rw [hq]
    simp [h, bne_iff_ne, hr, List.all_eq_true, ite_true_right_iff]
    constructor
    · intro hall f hf
      exact fun hfr => (hall f hf).resolve_left hfr
    · intro hall f hf
      exact or_iff_not_imp_left.mpr (hall f hf)
  · have h1 : q.type ≠ "message" := fun hh => h (by simp [hh])
    have h2 : q.type ≠ "form" := fun hh => h (by simp [hh])
    have h3 : q.type ≠ "checkbox" := fun hh => h (by simp [hh])
    have h4 : q.type ≠ "upload" := fun hh => h (by simp [hh])
    unfold canSubmit; rw [hq]
    dsimp only
    rw [beq_eq_false_iff_ne.mpr h1, beq_eq_false_iff_ne.mpr h2,
        beq_eq_false_iff_ne.mpr h3, beq_eq_false_iff_ne.mpr h4]
    simp [bne_iff_ne, hr]
    cases st.currentAnswer <;> simp [isEmptyStr, isNull, beq_eq_false_iff_ne]
  · unfold canSubmitQP; rw [hq]
    simp [h, hr]

/-- C1 witness: the amended theorem applied to the empty required
checkbox question, where submission is indeed blocked. -/
theorem c1_witness :
    stCheckboxEmpty.currentQuestion = some checkboxQ ∧
    canSubmit stCheckboxEmpty = false := by
  have h := (c1_amended stCheckboxEmpty checkboxQ rfl).2.2.2.1 rfl (by decide)
  refine ⟨rfl, ?_⟩
  have h2 : ¬(canSubmit stCheckboxEmpty = true) := fun hc => (h.mp hc) rfl
  simpa using h2

/-- C3 confirmed: answer serialization is determined by the question
type in both wizard variants — checkbox answers are always the array
of selected labels (whatever its length), form answers are the spread
copy of the flat field map, an upload answer attaches the
`{filename, content_type, base64}` payload built from the uploaded
file handle, and every other type passes the scalar answer value
through (scalar in, scalar out); no file payload is attached for
non-upload types. -/
theorem c3_confirmed (st : WizardState) (q : Question) :
    (q.type = "checkbox" →
      answerValueFor st q = .arr st.currentAnswerArray ∧
      (answerValueFor st q).isArr = true ∧
      (answerValueFileQP st q).1 = .arr st.currentAnswerArray) ∧
    (q.type = "form" →
      answerValueFor st q = .obj (spreadFields st.formData) ∧
      (answerValueFileQP st q).1 = .obj (spreadFields st.formData)) ∧
    (q.type = "upload" → ∀ f, st.uploadedFile = some f →
      filePayloadFor st q =
        some ⟨f.name, f.type, f.base64.bind (fun s => if s == "" then none else some s)⟩ ∧
      (answerValueFileQP st q).2 = some ⟨f.name, f.type, f.base64⟩) ∧
    (q.type ≠ "upload" →
      filePayloadFor st q = none ∧ (answerValueFileQP st q).2 = none) ∧
    (q.type ∉ (["checkbox", "form", "upload"] : List String) →
      answerValueFor st q = st.currentAnswer ∧
      (answerValueFileQP st q).1 = st.currentAnswer ∧
      (st.currentAnswer.isScalar = true → (answerValueFor st q).isScalar = true)) := by
  refine ⟨fun h => ?_, fun h => ?_, fun h f hf => ?_, fun h => ?_, fun h => ?_⟩
  · exact ⟨by simp [answerValueFor, h], by simp [answerValueFor, h, JValue.isArr],
      by simp [answerValueFileQP, h]⟩
  · exact ⟨by simp [answerValueFor, h], by simp [answerValueFileQP, h]⟩
  · constructor
    · simp [filePayloadFor, h, hf]
    · simp [answerValueFileQP, h, hf]
  · constructor
    · unfold filePayloadFor
      rw [beq_eq_false_iff_ne.mpr h]
      rfl
    · unfold answerValueFileQP
      rw [beq_eq_false_iff_ne.mpr h]
      split
      · rfl
      · split <;> rfl
  · have h1 : q.type ≠ "checkbox" := fun hh => h (by simp [hh])
    have h2 : q.type ≠ "form" := fun hh => h (by simp [hh])
    have h3 : q.type ≠ "upload" := fun hh => h (by simp [hh])
    refine ⟨?_, ?_, fun hs => ?_⟩
    · unfold answerValueFor
      rw [beq_eq_false_iff_ne.mpr h1, beq_eq_false_iff_ne.mpr h2, beq_eq_false_iff_ne.mpr h3]
      rfl
    · unfold answerValueFileQP
      rw [beq_eq_false_iff_ne.mpr h1, beq_eq_false_iff_ne.mpr h2, beq_eq_false_iff_ne.mpr h3]
      rfl
    · unfold answerValueFor
      rw [beq_eq_false_iff_ne.mpr h1, beq_eq_false_iff_ne.mpr h2, beq_eq_false_iff_ne.mpr h3]
      simpa using hs

/-- C3 witness: the confirmed theorem applied to a completed upload
and to an answered radio question. -/
theorem c3_witness :
    stUploadDone.uploadedFile = some uploadedF ∧
    filePayloadFor stUploadDone uploadQ = some ⟨"a.pdf", "application/pdf", none⟩ ∧
    (answerValueFileQP stUploadDone uploadQ).2 = some ⟨"a.pdf", "application/pdf", none⟩ ∧
    answerValueFor stRadioFilled radioQ = .str "optA" := by
  have h := (c3_confirmed stUploadDone uploadQ).2.2.1 rfl uploadedF rfl
  have h2 := ((c3_confirmed stRadioFilled radioQ).2.2.2.2 (by decide)).1
  exact ⟨rfl, h.1, h.2, h2⟩

/-- C4 confirmed: whether the resume endpoint or the fallback
session-status endpoint reports status `completed`, mount-time
initialization redirects to the completion route and leaves no current
question set; and mounting with a route session id and no cached
session is exactly this resume flow. -/
theorem c4_confirmed (st0 : WizardState) (sid : String)
    (resume : Except String ResumeResp) (statusR : Except String StatusResp)
    (hq0 : st0.currentQuestion = none) :
    (∀ d, resume = .ok d → d.success = true → d.status = some "completed" →
      (resumeFlow st0 sid resume statusR).redirect = some (completionRoute sid) ∧
      (resumeFlow st0 sid resume statusR).state.currentQuestion = none ∧
      (resumeFlow st0 sid resume statusR).calledStatus = false) ∧
    (∀ d sd, resume = .ok d → d.success = false → statusR = .ok sd →
      sd.status = some "completed" →
      (resumeFlow st0 sid resume statusR).redirect = some (completionRoute sid) ∧
      (resumeFlow st0 sid resume statusR).state.currentQuestion = none ∧
      (resumeFlow st0 sid resume statusR).calledStatus = true) ∧
    (∀ r, initQuestionnaire st0 (some r) none resume statusR = resumeFlow st0 r resume statusR) := by
  refine ⟨fun d hd hsucc hst => ?_, fun d sd hd hsucc hsd hst => ?_, fun r => rfl⟩
  · subst hd
    unfold resumeFlow
    simp [hsucc, hst, hq0]
  · subst hd
    subst hsd
    unfold resumeFlow
    simp [hsucc, hst, hq0]

/-- C4 witness: the confirmed theorem applied to a concrete
completed-session resume response. -/
theorem c4_witness :
    initialState.currentQuestion = none ∧
    resumeCompleted.success = true ∧
    resumeCompleted.status = some "completed" ∧
    (resumeFlow initialState "s1" (.ok resumeCompleted) (.ok {})).redirect =
      some (completionRoute "s1") ∧
    (resumeFlow initialState "s1" (.ok resumeCompleted) (.ok {})).state.currentQuestion = none := by
  have h := (c4_confirmed initialState "s1" (.ok resumeCompleted) (.ok {}) rfl).1
    resumeCompleted rfl rfl rfl
  exact ⟨rfl, rfl, rfl, h.1, h.2.1⟩

/-- C7 confirmed: when the cached `questionnaire_session` entry holds
a question for the session being opened, mount renders that cached
question with its progress and part info, pre-populates the cached
answer — as a selection array for a checkbox question, as form data
for a form question, and as the scalar answer otherwise, each both
plain and unwrapped from a `{value: ...}` wrapper — removes the cached
entry, and issues no network request; when the cache does not apply,
mount is exactly the resume flow, which adopts the question, progress,
part info and previous answers that the resume endpoint returns. -/
theorem c7_confirmed :
    (∀ st0 routeSid s q resume statusR sid,
      s.question = some q → sessionIdOf routeSid (some s) = some sid → s.sessionId = sid →
      (initQuestionnaire st0 routeSid (some s) resume statusR).calledResume = false ∧
      (initQuestionnaire st0 routeSid (some s) resume statusR).calledStatus = false ∧
      (initQuestionnaire st0 routeSid (some s) resume statusR).removedStorage = true ∧
      (initQuestionnaire st0 routeSid (some s) resume statusR).state.currentQuestion = some q ∧
      (initQuestionnaire st0 routeSid (some s) resume statusR).state.progress = s.progress ∧
      (initQuestionnaire st0 routeSid (some s) resume statusR).state.partInfo = s.partInfo ∧
      (∀ ans pa, s.answers = some ans → answersLookup ans q.id = some pa →
        jvTruthy pa = true →
        (q.type = "checkbox" → getField pa "value" = none →
          (initQuestionnaire st0 routeSid (some s) resume statusR).state.currentAnswerArray =
            arrElems pa) ∧
        (q.type = "checkbox" → ∀ v, getField pa "value" = some v → jvTruthy v = true →
          (initQuestionnaire st0 routeSid (some s) resume statusR).state.currentAnswerArray =
            arrElems v) ∧
        (q.type = "form" → getField pa "value" = none →
          (initQuestionnaire st0 routeSid (some s) resume statusR).state.formData = pa) ∧
        (q.type = "form" → ∀ v, getField pa "value" = some v → jvTruthy v = true →
          (initQuestionnaire st0 routeSid (some s) resume statusR).state.formData = v) ∧
        (q.type ≠ "checkbox" → q.type ≠ "form" → getField pa "value" = none →
          (initQuestionnaire st0 routeSid (some s) resume statusR).state.currentAnswer = pa) ∧
        (q.type ≠ "checkbox" → q.type ≠ "form" → ∀ v, getField pa "value" = some v →
          (initQuestionnaire st0 routeSid (some s) resume statusR).state.currentAnswer = v))) ∧
    (∀ st0 r s resume statusR, (s.question = none ∨ s.sessionId ≠ r) →
      initQuestionnaire st0 (some r) (some s) resume statusR = resumeFlow st0 r resume statusR) ∧
    (∀ st0 sid resume statusR d q, resume = .ok d → d.success = true →
      d.status ≠ some "completed" → d.question = some q →
      (resumeFlow st0 sid resume statusR).state.currentQuestion = some q ∧
      (resumeFlow st0 sid resume statusR).state.progress = d.progress ∧
      (resumeFlow st0 sid resume statusR).state.partInfo = d.part_info ∧
      (resumeFlow st0 sid resume statusR).state.sessionAnswers = d.answers ∧
      (resumeFlow st0 sid resume statusR).calledStatus = false) := by
  refine ⟨fun st0 routeSid s q resume statusR sid hqs hsid hm => ?_,
    fun st0 r s resume statusR hor => ?_,
    fun st0 sid resume statusR d q hd hsucc hst hq => ?_⟩
  · have houtcome : initQuestionnaire st0 routeSid (some s) resume statusR =
        ⟨applyStoredAnswer
          { st0 with currentQuestion := some q
                     progress := s.progress
                     partInfo := s.partInfo } q s.answers, none, false, false, true⟩ := by
      unfold initQuestionnaire
      rw [hsid]
      simp [hqs, hm]
    rw [houtcome]
    have hpres := applyStoredAnswer_preserves
      { st0 with currentQuestion := some q
                 progress := s.progress
                 partInfo := s.partInfo } q s.answers
    refine ⟨rfl, rfl, rfl, hpres.1, hpres.2.1, hpres.2.2, ?_⟩
    intro ans pa hans hpa htr
    rw [hans]
    refine ⟨fun hc hval => ?_, fun hc v hv htv => ?_, fun hf hval => ?_,
      fun hf v hv htv => ?_, fun hc hf hval => ?_, fun hc hf v hv => ?_⟩
    · simp only [applyStoredAnswer, hpa, htr, hc]
      simp [hval, jsOr, jvTruthy]
    · simp only [applyStoredAnswer, hpa, htr, hc]
      simp [hv, jsOr, htv]
    · simp only [applyStoredAnswer, hpa, htr, hf]
      simp [hval, jsOr, jvTruthy]
    · simp only [applyStoredAnswer, hpa, htr, hf]
      simp [hv, jsOr, htv]
    · simp only [applyStoredAnswer, hpa, htr,
        beq_eq_false_iff_ne.mpr hc, beq_eq_false_iff_ne.mpr hf]
      simp [hval]
    · simp only [applyStoredAnswer, hpa, htr,
        beq_eq_false_iff_ne.mpr hc, beq_eq_false_iff_ne.mpr hf]
      simp [hv]
  · rcases hq : s.question with - | q
    · unfold initQuestionnaire
      simp only [sessionIdOf, hq]
    · unfold initQuestionnaire
      have hne : s.sessionId ≠ r := by
        rcases hor with h | h
        · rw [hq] at h; cases h
        · exact h
      simp only [sessionIdOf, hq, beq_eq_false_iff_ne.mpr hne, Bool.false_eq_true, if_false]
  · subst hd
    unfold resumeFlow
    simp [hsucc, beq_eq_false_iff_ne.mpr hst, hq]

/-- C7 witness: the confirmed theorem applied to two concrete cached
sessions — a radio question with a plain scalar cached answer and a
checkbox question with a `{value: [...]}`-wrapped cached answer. -/
theorem c7_witness :
    storedWithQ.question = some radioQ ∧
    sessionIdOf (some "s1") (some storedWithQ) = some "s1" ∧
    storedWithQ.sessionId = "s1" ∧
    (initQuestionnaire initialState (some "s1") (some storedWithQ)
      (.ok { success := false }) (.ok {})).calledResume = false ∧
    (initQuestionnaire initialState (some "s1") (some storedWithQ)
      (.ok { success := false }) (.ok {})).removedStorage = true ∧
    (initQuestionnaire initialState (some "s1") (some storedWithQ)
      (.ok { success := false }) (.ok {})).state.currentQuestion = some radioQ ∧
    (initQuestionnaire initialState (some "s1") (some storedWithQ)
      (.ok { success := false }) (.ok {})).state.currentAnswer = .str "optB" ∧
    (initQuestionnaire initialState (some "s2") (some storedWithCheckbox)
      (.ok { success := false }) (.ok {})).state.currentAnswerArray = [.str "A"] := by
  have h := c7_confirmed.1 initialState (some "s1") storedWithQ radioQ
    (.ok { success := false }) (.ok {}) "s1" rfl rfl rfl
  have hpre := h.2.2.2.2.2.2 [("q2", .str "optB")] (.str "optB") rfl rfl rfl
  have hcb := c7_confirmed.1 initialState (some "s2") storedWithCheckbox checkboxQ
    (.ok { success := false }) (.ok {}) "s2" rfl rfl rfl
  have hcbpre := hcb.2.2.2.2.2.2 [("q5", .obj [("value", .arr [.str "A"])])]
    (.obj [("value", .arr [.str "A"])]) rfl rfl rfl
  refine ⟨rfl, rfl, rfl, h.1, h.2.2.1, h.2.2.2.1, ?_, ?_⟩
  · exact hpre.2.2.2.2.1 (by decide) (by decide) rfl
  · exact hcbpre.2.1 rfl (.arr [.str "A"]) rfl rfl

/-- C9 counterexample: `QuestionnairePage.vue`'s `formatText` passes
no `ALLOWED_ATTR`, so DOMPurify keeps its default-allowed attributes
on allowed tags — a `title` attribute on `<b>` survives into the
`v-html`-bound output, refuting the claim that all attributes present
in the server-supplied text are stripped. -/
theorem c9_counterexample :
    HtmlToken.tag "b" [("title", "x")] ∈ formatTextQP [.tag "b" [("title", "x")]] ∧
    ([("title", "x")] : List (String × String)) ≠ [] := by
  constructor
  · have he : formatTextQP [.tag "b" [("title", "x")]] = [.tag "b" [("title", "x")]] := by rfl
    rw [he]
    simp
  · simp

/-- C9 amended: `LangGraphQuestionnaire.vue`'s `formatText` outputs
only tags from its fixed allow-list with no attributes and no raw
newline in character data (newlines become `<br>` tags);
`QuestionnairePage.vue`'s `formatText` outputs only tags from its
allow-list (which omits `u`) and newline-free text, but retains
attributes from DOMPurify's default attribute allow-list on allowed
tags instead of stripping all attributes. -/
theorem c9_amended :
    (∀ ts, ∀ t ∈ formatText ts, tokenSafe t) ∧
    (∀ ts, ∀ t ∈ formatTextQP ts, qpTokenSafe t) := by
  constructor
  · intro ts t ht
    unfold formatText at ht
    rw [List.mem_flatMap] at ht
    obtain ⟨u, hu, htu⟩ := ht
    unfold sanitize at hu
    rw [List.mem_filterMap] at hu
    obtain ⟨w, hw, hwu⟩ := hu
    cases w with
    | text cs =>
      simp only [Option.some.injEq] at hwu
      subst hwu
      unfold newlineToBr at htu
      rcases mem_intersperse _ _ _ htu with rfl | hmem
      · exact ⟨by simp [lgAllowedTags], rfl⟩
      · rw [List.mem_map] at hmem
        obtain ⟨p, hp, rfl⟩ := hmem
        exact splitAtNewline_no_nl _ p hp
    | tag n attrs =>
      dsimp only at hwu
      by_cases hn : n ∈ lgAllowedTags
      · rw [if_pos hn] at hwu
        simp only [Option.some.injEq] at hwu
        subst hwu
        have hfil : attrs.filter (fun a => a.1 ∈ ([] : List String)) = [] := by simp
        rw [hfil] at htu
        rcases List.mem_singleton.mp htu with rfl
        exact ⟨hn, rfl⟩
      · rw [if_neg hn] at hwu
        cases hwu
  · intro ts t ht
    unfold formatTextQP sanitize at ht
    rw [List.mem_filterMap] at ht
    obtain ⟨w, hw, hwu⟩ := ht
    cases w with
    | text cs =>
      simp only [Option.some.injEq] at hwu
      subst hwu
      rw [List.mem_flatMap] at hw
      obtain ⟨orig, ho, hwo⟩ := hw
      cases orig with
      | text cs0 =>
        unfold newlineToBrQP at hwo
        rcases mem_intersperse _ _ _ hwo with heq | hmem
        · cases heq
        · rw [List.mem_map] at hmem
          obtain ⟨p, hp, hpe⟩ := hmem
          injection hpe with h1
          subst h1
          exact splitAtNewline_no_nl _ p hp
      | tag n a =>
        simp at hwo
    | tag n attrs =>
      dsimp only at hwu
      by_cases hn : n ∈ qpAllowedTags
      · rw [if_pos hn] at hwu
        simp only [Option.some.injEq] at hwu
        subst hwu
        refine ⟨hn, fun a ha => ?_⟩
        have hmem := List.mem_filter.mp ha
        simpa using hmem.2
      · rw [if_neg hn] at hwu
        cases hwu

/-- C9 witness: the amended theorem applied to concrete fragments of
both variants — the `<br>` produced for a newline in the first, and
the attribute-bearing allowed tag kept by the second. -/
theorem c9_witness :
    (HtmlToken.tag "br" [] ∈ formatText sampleHtml) ∧ tokenSafe (.tag "br" []) ∧
    (HtmlToken.tag "b" [("title", "x")] ∈ formatTextQP [.tag "b" [("title", "x")]]) ∧
    qpTokenSafe (.tag "b" [("title", "x")]) := by
  have hm : HtmlToken.tag "br" [] ∈ formatText sampleHtml := by
    have he : formatText sampleHtml =
        [.text ('a' :: []), .tag "br" [], .text ('b' :: []), .tag "b" []] := by rfl
    rw [he]
    simp
  have hm2 : HtmlToken.tag "b" [("title", "x")] ∈ formatTextQP [.tag "b" [("title", "x")]] := by
    have he : formatTextQP [.tag "b" [("title", "x")]] = [.tag "b" [("title", "x")]] := by rfl
    rw [he]
    simp
  exact ⟨hm, c9_amended.1 sampleHtml _ hm, hm2, c9_amended.2 _ _ hm2⟩

end QWiz
